import Mathlib

/-!
Shallow embedding of the Events CRUD API (Express + native MongoDB driver).

Source files embedded here:
* controller (`getEventById`, `getLatestEvents`, `createEvent`, `updateEvent`,
  `deleteEvent`) — the five request handlers;
* the global error handler of the server entry point.

Modelling conventions:
* JavaScript runtime values are `JVal`; absent object keys are `Option.none`.
* `Date` values carry their epoch time as an `Int`; a `Date` built from a
  string keeps the string symbolically (`dateFromString`), since no handler
  logic inspects the parsed time of a string-built date.
* The current instant of a request is an explicit `now : Int` parameter;
  every `new Date()` evaluated while serving one request yields this instant.
* The MongoDB collection is a list of documents, each an assigned `_id`
  (a 24-hex-character string) plus an association list of fields.
* A store/driver fault that would be thrown inside the `try` block is an
  explicit `exc : Option String` input (the exception's `message`); the
  `catch` branch of each handler is taken exactly when it is `some`.
* `process.env.NODE_ENV` is the `mode` parameter.  The five handlers receive
  it but never read it, exactly as in the source; only the global error
  handler branches on it.
-/

namespace EventsApi

/-- A JavaScript runtime value as far as the handlers can observe it. -/
inductive JVal where
  | null : JVal
  | nan : JVal
  | bool (b : Bool) : JVal
  | num (n : Int) : JVal
  | str (s : String) : JVal
  | date (t : Int) : JVal
  | dateFromString (s : String) : JVal
  | arr (xs : List JVal) : JVal
  | obj (fields : List (String × JVal)) : JVal
deriving Repr

mutual

/-- Structural value equality, used to model MongoDB's comparison of a
written field against the stored one when it reports `modifiedCount`. -/
def JVal.beq : JVal → JVal → Bool
  | .null, .null => true
  | .nan, .nan => true
  | .bool a, .bool b => a == b
  | .num a, .num b => a == b
  | .str a, .str b => a == b
  | .date a, .date b => a == b
  | .dateFromString a, .dateFromString b => a == b
  | .arr xs, .arr ys => JVal.beqList xs ys
  | .obj xs, .obj ys => JVal.beqFields xs ys
  | _, _ => false

def JVal.beqList : List JVal → List JVal → Bool
  | [], [] => true
  | x :: xs, y :: ys => JVal.beq x y && JVal.beqList xs ys
  | _, _ => false

def JVal.beqFields : List (String × JVal) → List (String × JVal) → Bool
  | [], [] => true
  | (k, v) :: xs, (l, w) :: ys => k == l && JVal.beq v w && JVal.beqFields xs ys
  | _, _ => false

end

/-- JavaScript truthiness: `undefined`, `null`, `NaN`, `false`, `0` and the
empty string are falsy; every object (dates, arrays, plain objects) is
truthy. -/
def truthy : JVal → Bool
  | .null => false
  | .nan => false
  | .bool b => b
  | .num n => n != 0
  | .str s => s != ""
  | .date _ => true
  | .dateFromString _ => true
  | .arr _ => true
  | .obj _ => true

/-- Truthiness of a possibly-absent value (`undefined` is falsy). -/
def truthyOpt : Option JVal → Bool
  | none => false
  | some v => truthy v

def isSpaceChar (c : Char) : Bool :=
  c = ' ' || c = '\t' || c = '\n' || c = '\r'

def digitsToNat (ds : List Char) : Nat :=
  ds.foldl (fun a c => a * 10 + (c.toNat - 48)) 0

/-- `parseInt(s, 10)`: skip leading whitespace, take an optional sign and the
longest prefix of decimal digits; `none` models `NaN` (no digits). -/
def parseIntStr (s : String) : Option Int :=
  let cs := s.data.dropWhile isSpaceChar
  match cs with
  | '-' :: rest =>
      let ds := rest.takeWhile Char.isDigit
      if ds.isEmpty then none else some (-(digitsToNat ds : Int))
  | '+' :: rest =>
      let ds := rest.takeWhile Char.isDigit
      if ds.isEmpty then none else some ((digitsToNat ds : Int))
  | rest =>
      let ds := rest.takeWhile Char.isDigit
      if ds.isEmpty then none else some ((digitsToNat ds : Int))

/-- `parseInt(v, 10)` after JS string coercion of `v`.  Integer numbers
round-trip through their decimal print; `null`, booleans, `NaN` and `Date`
objects coerce to strings that do not start with a digit, hence `NaN`;
array/object coercions (exotic, unused by any handler input of interest)
are conservatively `NaN`. -/
def parseIntJS : JVal → Option Int
  | .num n => some n
  | .str s => parseIntStr s
  | _ => none

/-- `new Date(v)` for a truthy argument `v`.  A number is an epoch-time
offset, an existing date is copied; a string is kept symbolically (its parse
is never inspected by the handlers); remaining exotic coercions are also
kept symbolic. -/
def jsNewDateOf : JVal → JVal
  | .date t => .date t
  | .dateFromString s => .dateFromString s
  | .num n => .date n
  | .str s => .dateFromString s
  | .bool b => .date (if b then 1 else 0)
  | .null => .date 0
  | .nan => .dateFromString "NaN"
  | .arr xs => .dateFromString (toString xs.length)
  | .obj fs => .dateFromString (toString fs.length)

/-- `ObjectId.isValid` on a string: exactly 24 hexadecimal characters. -/
def isValidObjectId (s : String) : Bool :=
  s.length == 24 && s.data.all (fun c =>
    c.isDigit || ('a' ≤ c && c ≤ 'f') || ('A' ≤ c && c ≤ 'F'))

/-- First value stored under key `k` (JS object property read). -/
def getField (fs : List (String × JVal)) (k : String) : Option JVal :=
  (fs.find? (fun p => p.1 == k)).map Prod.snd

/-- Overwrite every entry stored under key `k` in place. -/
def replaceKey : List (String × JVal) → String → JVal → List (String × JVal)
  | [], _, _ => []
  | p :: ps, k, v => (if p.1 == k then (k, v) else p) :: replaceKey ps k v

/-- JS object property write: overwrite the key in place if present,
append it otherwise. -/
def setField (fs : List (String × JVal)) (k : String) (v : JVal) :
    List (String × JVal) :=
  if fs.any (fun p => p.1 == k) then replaceKey fs k v
  else fs ++ [(k, v)]

/-- JS `delete o[k]`. -/
def removeField (fs : List (String × JVal)) (k : String) :
    List (String × JVal) :=
  fs.filter (fun p => p.1 != k)

/-- One stored document: the `_id` assigned at insertion plus its fields. -/
structure EventDoc where
  oid : String
  fields : List (String × JVal)
deriving Repr

/-- The `events` collection. -/
abbrev Store := List EventDoc

/-- `findOne({_id})`: first (in a real collection, only) match. -/
def findDoc (store : Store) (id : String) : Option EventDoc :=
  store.find? (fun d => d.oid == id)

/-- `updateOne({_id}, {$set: us})` applied to the stored documents: the
first matching document receives the partial field set. -/
def applySetFields (fs us : List (String × JVal)) : List (String × JVal) :=
  us.foldl (fun acc p => setField acc p.1 p.2) fs

def updateFirstDoc (store : Store) (id : String)
    (us : List (String × JVal)) : Store :=
  match store with
  | [] => []
  | d :: ds =>
      if d.oid == id then { d with fields := applySetFields d.fields us } :: ds
      else d :: updateFirstDoc ds id us

/-- `deleteOne({_id})`: remove the first matching document. -/
def deleteFirstDoc (store : Store) (id : String) : Store :=
  match store with
  | [] => []
  | d :: ds => if d.oid == id then ds else d :: deleteFirstDoc ds id

/-- A document as it is serialized into a response (`_id` first). -/
def docToJVal (d : EventDoc) : JVal :=
  .obj (("_id", .str d.oid) :: d.fields)

/-- Pagination metadata of the list endpoint, for validated (hence
positive) `limit`/`page`. -/
structure Pagination where
  currentPage : Nat
  limit : Nat
  totalEvents : Nat
  totalPages : Nat
deriving Repr

/-- The JSON envelope together with the HTTP status it is sent with.
`error = none` models an absent `error` key (JSON serialization drops
`undefined`). -/
structure Response where
  status : Nat
  success : Bool
  message : Option String := none
  data : Option JVal := none
  pagination : Option Pagination := none
  error : Option String := none
deriving Repr

def resp400 (msg : String) : Response :=
  { status := 400, success := false, message := some msg }

def resp404 (msg : String) : Response :=
  { status := 404, success := false, message := some msg }

/-- The `catch` branch shared by all five handlers: a 500 envelope that
always attaches the raw exception message, in every mode. -/
def resp500 (errMsg : String) : Response :=
  { status := 500, success := false, message := some "Internal server error",
    error := some errMsg }

/-- Outcome of one handler call: the response, the collection afterwards,
and how many store operations were performed. -/
structure HandlerOut where
  resp : Response
  store : Store
  dbCalls : Nat
deriving Repr

/-- GET /events?id=... — `getEventById`.  `idQ` is `req.query.id` (absent or
a string).  The `!id` guard fires on an absent or empty id. -/
def getEventById (mode : String) (exc : Option String) (idQ : Option String)
    (store : Store) : HandlerOut :=
  match idQ with
  | none => ⟨resp400 "Event ID is required", store, 0⟩
  | some id =>
      if id = "" then ⟨resp400 "Event ID is required", store, 0⟩
      else if ¬ isValidObjectId id then
        ⟨resp400 "Invalid Event ID format", store, 0⟩
      else
        match exc with
        | some m => ⟨resp500 m, store, 0⟩
        | none =>
            match findDoc store id with
            | none => ⟨resp404 "Event not found", store, 1⟩
            | some ev =>
                ⟨{ status := 200, success := true, data := some (docToJVal ev) },
                 store, 1⟩

/-- MongoDB sort comparison on the `schedule` field, descending: BSON
orders values first by type (null/missing < numbers < strings < objects <
arrays < booleans < dates), then within a type by value.  `schedGE a b`
means `a` sorts no later than `b` in the descending order. -/
def bsonTypeRank : Option JVal → Nat
  | none => 0
  | some .null => 0
  | some .nan => 1
  | some (.num _) => 1
  | some (.str _) => 2
  | some (.obj _) => 3
  | some (.arr _) => 4
  | some (.bool _) => 5
  | some (.date _) => 6
  | some (.dateFromString _) => 6

def schedValGE (a b : Option JVal) : Bool :=
  let ra := bsonTypeRank a
  let rb := bsonTypeRank b
  if ra = rb then
    match a, b with
    | some (.num x), some (.num y) => x ≥ y
    | some .nan, some (.num _) => false
    | some (.num _), some .nan => true
    | some (.str x), some (.str y) => ¬ (x < y)
    | some (.date x), some (.date y) => x ≥ y
    | _, _ => true
  else ra > rb

def schedGE (a b : EventDoc) : Bool :=
  schedValGE (getField a.fields "schedule") (getField b.fields "schedule")

/-- Stable insertion of a document into a schedule-descending list. -/
def insertSchedDesc (d : EventDoc) : List EventDoc → List EventDoc
  | [] => [d]
  | e :: es => if schedGE d e then d :: e :: es else e :: insertSchedDesc d es

/-- The collection in `sort({schedule: -1})` order. -/
def sortByScheduleDesc (store : Store) : List EventDoc :=
  store.foldr insertSchedDesc []

/-- GET /events?type=latest — `getLatestEvents`.  `limitQ`/`pageQ` are the
raw query strings; an absent parameter defaults to `5` resp. `1` before the
`parseInt` (which is the identity on those defaults). -/
def getLatestEvents (mode : String) (exc : Option String)
    (limitQ pageQ : Option String) (store : Store) : HandlerOut :=
  let limParsed := match limitQ with
    | none => some (5 : Int)
    | some s => parseIntStr s
  let pageParsed := match pageQ with
    | none => some (1 : Int)
    | some s => parseIntStr s
  match limParsed with
  | none => ⟨resp400 "Limit must be a positive integer", store, 0⟩
  | some limitNum =>
      if limitNum < 1 then ⟨resp400 "Limit must be a positive integer", store, 0⟩
      else
        match pageParsed with
        | none => ⟨resp400 "Page must be a positive integer", store, 0⟩
        | some pageNum =>
            if pageNum < 1 then ⟨resp400 "Page must be a positive integer", store, 0⟩
            else
              match exc with
              | some m => ⟨resp500 m, store, 0⟩
              | none =>
                  let limN := limitNum.toNat
                  let pageN := pageNum.toNat
                  let skip := (pageN - 1) * limN
                  let totalCount := store.length
                  let events :=
                    ((sortByScheduleDesc store).drop skip).take limN
                  ⟨{ status := 200, success := true,
                     data := some (.arr (events.map docToJVal)),
                     pagination := some
                       { currentPage := pageN, limit := limN,
                         totalEvents := totalCount,
                         totalPages := (totalCount + limN - 1) / limN } },
                   store, 2⟩

/-- The request body of POST /events, destructured exactly as the handler
does; keys other than these eleven are never read. -/
structure CreateBody where
  uid : Option JVal := none
  name : Option JVal := none
  tagline : Option JVal := none
  schedule : Option JVal := none
  description : Option JVal := none
  files : Option JVal := none
  moderator : Option JVal := none
  category : Option JVal := none
  sub_category : Option JVal := none
  rigor_rank : Option JVal := none
  attendees : Option JVal := none

/-- `x || d` on a possibly-absent value. -/
def orElseJS (o : Option JVal) (d : JVal) : JVal :=
  match o with
  | some v => if truthy v then v else d
  | none => d

/-- `schedule ? new Date(schedule) : new Date()`. -/
def schedInit (o : Option JVal) (now : Int) : JVal :=
  match o with
  | some v => if truthy v then jsNewDateOf v else .date now
  | none => .date now

/-- `rigor_rank ? parseInt(rigor_rank, 10) : 0`. -/
def rigorInit (o : Option JVal) : JVal :=
  match o with
  | some v =>
      if truthy v then
        match parseIntJS v with
        | some n => .num n
        | none => .nan
      else .num 0
  | none => .num 0

/-- `Array.isArray(attendees) ? attendees : []`. -/
def attendeesInit (o : Option JVal) : JVal :=
  match o with
  | some (.arr xs) => .arr xs
  | _ => .arr []

/-- The `eventDocument` object literal built by `createEvent`. -/
def buildEventDocument (b : CreateBody) (now : Int) : List (String × JVal) :=
  [("type", .str "event"),
   ("uid", orElseJS b.uid .null),
   ("name", b.name.getD .null),
   ("tagline", orElseJS b.tagline (.str "")),
   ("schedule", schedInit b.schedule now),
   ("description", orElseJS b.description (.str "")),
   ("files", orElseJS b.files (.obj [("image", .null)])),
   ("moderator", orElseJS b.moderator .null),
   ("category", orElseJS b.category (.str "")),
   ("sub_category", orElseJS b.sub_category (.str "")),
   ("rigor_rank", rigorInit b.rigor_rank),
   ("attendees", attendeesInit b.attendees),
   ("createdAt", .date now),
   ("updatedAt", .date now)]

/-- POST /events — `createEvent`.  `newId` is the `_id` the store assigns
to the inserted document. -/
def createEvent (mode : String) (exc : Option String) (b : CreateBody)
    (now : Int) (newId : String) (store : Store) : HandlerOut :=
  if ¬ truthyOpt b.name then
    ⟨resp400 "Event name is required", store, 0⟩
  else
    match exc with
    | some m => ⟨resp500 m, store, 0⟩
    | none =>
        ⟨{ status := 201, success := true,
           message := some "Event created successfully",
           data := some (.obj [("_id", .str newId)]) },
         store ++ [⟨newId, buildEventDocument b now⟩], 1⟩

/-- The `if (updateFields.schedule)` statement of `updateEvent`: a truthy
`schedule` is coerced through `new Date`. -/
def schedStep (fs : List (String × JVal)) : List (String × JVal) :=
  match getField fs "schedule" with
  | some v => if truthy v then setField fs "schedule" (jsNewDateOf v) else fs
  | none => fs

/-- The `if (updateFields.rigor_rank !== undefined)` statement of
`updateEvent`: a present `rigor_rank` (truthy or not) is coerced through
`parseInt`. -/
def rigorStep (fs : List (String × JVal)) : List (String × JVal) :=
  match getField fs "rigor_rank" with
  | some v =>
      setField fs "rigor_rank"
        (match parseIntJS v with
         | some n => .num n
         | none => .nan)
  | none => fs

/-- The mutation of `updateFields` performed by `updateEvent` between the
emptiness check and the `updateOne` call, in statement order: drop `_id`
and `type`, coerce a truthy `schedule` through `new Date`, coerce a
present `rigor_rank` through `parseInt`, then set `updatedAt`. -/
def transformUpdateFields (body : List (String × JVal)) (now : Int) :
    List (String × JVal) :=
  setField (rigorStep (schedStep (removeField (removeField body "_id") "type")))
    "updatedAt" (.date now)

/-- PUT /events/:id — `updateEvent`.  `idP` is `req.params.id`; `body` is
`req.body`, an arbitrary key bag (no duplicate keys, being a JS object).
The emptiness check runs on the body as received, before `_id`/`type` are
dropped. -/
def updateEvent (mode : String) (exc : Option String) (idP : Option String)
    (body : List (String × JVal)) (now : Int) (store : Store) : HandlerOut :=
  match idP with
  | none => ⟨resp400 "Event ID is required", store, 0⟩
  | some id =>
      if id = "" then ⟨resp400 "Event ID is required", store, 0⟩
      else if ¬ isValidObjectId id then
        ⟨resp400 "Invalid Event ID format", store, 0⟩
      else if body.length = 0 then
        ⟨resp400 "No update fields provided", store, 0⟩
      else
        let fields := transformUpdateFields body now
        match exc with
        | some m => ⟨resp500 m, store, 0⟩
        | none =>
            match findDoc store id with
            | none => ⟨resp404 "Event not found", store, 1⟩
            | some d =>
                let newStore := updateFirstDoc store id fields
                let modified :=
                  if JVal.beqFields (applySetFields d.fields fields) d.fields
                  then 0 else 1
                ⟨{ status := 200, success := true,
                   message := some "Event updated successfully",
                   data := some (.obj [("modifiedCount", .num modified)]) },
                 newStore, 1⟩

/-- DELETE /events/:id — `deleteEvent`. -/
def deleteEvent (mode : String) (exc : Option String) (idP : Option String)
    (store : Store) : HandlerOut :=
  match idP with
  | none => ⟨resp400 "Event ID is required", store, 0⟩
  | some id =>
      if id = "" then ⟨resp400 "Event ID is required", store, 0⟩
      else if ¬ isValidObjectId id then
        ⟨resp400 "Invalid Event ID format", store, 0⟩
      else
        match exc with
        | some m => ⟨resp500 m, store, 0⟩
        | none =>
            match findDoc store id with
            | none => ⟨resp404 "Event not found", store, 1⟩
            | some _ =>
                ⟨{ status := 200, success := true,
                   message := some "Event deleted successfully" },
                 deleteFirstDoc store id, 1⟩

/-- The server's global error trap: only here is the error detail
conditioned on the mode, and only on the exact string "development". -/
def globalErrorHandler (mode : String) (errMsg : String) : Response :=
  { status := 500, success := false, message := some "Internal server error",
    error := if mode = "development" then some errMsg else none }

/-- A value that is a (mathematical) integer in the stored document: the
`num` constructor; `NaN` in particular is not an integer. -/
def isIntJVal : JVal → Bool
  | .num _ => true
  | _ => false

/-- A query-string value denotes a positive integer when it is a decimal
numeral (all digits) of some `n ≥ 1`.  This renders the spec's "is a
positive integer" side condition on `limit`/`page`, for comparison with
what the code's `parseInt`-based check accepts. -/
def denotesPosInt (s : String) : Bool :=
  (not s.data.isEmpty) && s.data.all Char.isDigit
    && decide (1 ≤ digitsToNat s.data)

/-- The validation predicate the code actually applies to `limit`/`page`:
`parseInt(s, 10)` succeeds and yields a value `≥ 1`. -/
def parsesPositive (s : String) : Bool :=
  match parseIntStr s with
  | some n => decide ((1 : Int) ≤ n)
  | none => false

/-- An optional field that, when present, is a non-empty string. -/
def strOptOk : Option JVal → Bool
  | none => true
  | some (.str s) => s != ""
  | _ => false

/-- An optional field that, when present, is a date value. -/
def dateOptOk : Option JVal → Bool
  | none => true
  | some (.date _) => true
  | _ => false

/-- An optional field that, when present, is an object. -/
def objOptOk : Option JVal → Bool
  | none => true
  | some (.obj _) => true
  | _ => false

/-- An optional field that, when present, is an integer number. -/
def numOptOk : Option JVal → Bool
  | none => true
  | some (.num _) => true
  | _ => false

/-- An optional field that, when present, is an array. -/
def arrOptOk : Option JVal → Bool
  | none => true
  | some (.arr _) => true
  | _ => false

/-- A required non-empty string field. -/
def nameOk : Option JVal → Bool
  | some (.str s) => s != ""
  | _ => false

/-- A Create body is well typed when every §3 field that is present has the
declared type (strings non-empty where the code's `||`-defaulting would
otherwise replace them, `schedule` a date, `rigor_rank` an integer,
`attendees` an array) and `name` is a non-empty string. -/
def wellTypedCreate (b : CreateBody) : Bool :=
  nameOk b.name && strOptOk b.uid && strOptOk b.tagline
    && dateOptOk b.schedule && strOptOk b.description && objOptOk b.files
    && strOptOk b.moderator && strOptOk b.category && strOptOk b.sub_category
    && numOptOk b.rigor_rank && arrOptOk b.attendees

/-- Modelled from the spec (§3, §4.3, §8 round-trip property): the document
the round-trip is specified to return — the Create input extended with the
server-assigned fields (`_id`, `type`, `createdAt`, `updatedAt`) and the
defaulted fields of the data model.  This definition follows the spec's
words and is compared against the code-side pipeline in the round-trip
theorem. -/
def specRoundTripDoc (b : CreateBody) (oid : String) (now : Int) : JVal :=
  .obj [("_id", .str oid),
        ("type", .str "event"),
        ("uid", b.uid.getD .null),
        ("name", b.name.getD .null),
        ("tagline", b.tagline.getD (.str "")),
        ("schedule", b.schedule.getD (.date now)),
        ("description", b.description.getD (.str "")),
        ("files", b.files.getD (.obj [("image", .null)])),
        ("moderator", b.moderator.getD .null),
        ("category", b.category.getD (.str "")),
        ("sub_category", b.sub_category.getD (.str "")),
        ("rigor_rank", b.rigor_rank.getD (.num 0)),
        ("attendees", b.attendees.getD (.arr [])),
        ("createdAt", .date now),
        ("updatedAt", .date now)]

/-! ### Helper lemmas about field and store operations -/

/-- First-wins merge of two lookups, the specification of `$set`. -/
def mergeLookup (a b : Option JVal) : Option JVal :=
  match a with
  | some v => some v
  | none => b

theorem getField_nil (k : String) : getField [] k = none := rfl

theorem getField_cons_self (p : String × JVal) (ps : List (String × JVal))
    (k : String) (h : (p.1 == k) = true) : getField (p :: ps) k = some p.2 := by
  simp [getField, List.find?_cons_of_pos, h]

theorem getField_cons_ne (p : String × JVal) (ps : List (String × JVal))
    (k : String) (h : (p.1 == k) = false) :
    getField (p :: ps) k = getField ps k := by
  simp [getField, List.find?_cons_of_neg, h]

theorem replaceKey_cons_pos (p : String × JVal) (ps : List (String × JVal))
    (k : String) (v : JVal) (h : (p.1 == k) = true) :
    replaceKey (p :: ps) k v = (k, v) :: replaceKey ps k v := by
  simp [replaceKey, h]

theorem replaceKey_cons_neg (p : String × JVal) (ps : List (String × JVal))
    (k : String) (v : JVal) (h : (p.1 == k) = false) :
    replaceKey (p :: ps) k v = p :: replaceKey ps k v := by
  simp [replaceKey, h]

theorem getField_replaceKey_self (fs : List (String × JVal)) (k : String)
    (v : JVal) (h : fs.any (fun p => p.1 == k) = true) :
    getField (replaceKey fs k v) k = some v := by
  induction fs with
  | nil => simp at h
  | cons p ps ih =>
      by_cases hk : (p.1 == k) = true
      · rw [replaceKey_cons_pos p ps k v hk]
        exact getField_cons_self (k, v) _ k (by simp)
      · have hk2 : (p.1 == k) = false := by simpa using hk
        rw [replaceKey_cons_neg p ps k v hk2, getField_cons_ne p _ k hk2]
        simp only [List.any_cons, hk2, Bool.false_or] at h
        exact ih h

theorem getField_replaceKey_ne (fs : List (String × JVal)) (k k' : String)
    (v : JVal) (h : k' ≠ k) :
    getField (replaceKey fs k v) k' = getField fs k' := by
  induction fs with
  | nil => simp [replaceKey]
  | cons p ps ih =>
      by_cases hk : (p.1 == k) = true
      · have hkk : ((k, v).1 == k') = false := by
          simp only [beq_eq_false_iff_ne]
          exact fun hkk => h hkk.symm
        have hpk : (p.1 == k') = false := by
          have hp : p.1 = k := by simpa using hk
          simp only [beq_eq_false_iff_ne, hp]
          exact fun hkk => h hkk.symm
        rw [replaceKey_cons_pos p ps k v hk,
          getField_cons_ne (k, v) _ k' hkk, getField_cons_ne p _ k' hpk]
        exact ih
      · have hk2 : (p.1 == k) = false := by simpa using hk
        rw [replaceKey_cons_neg p ps k v hk2]
        by_cases hk' : (p.1 == k') = true
        · rw [getField_cons_self p _ k' hk', getField_cons_self p _ k' hk']
        · have hk'2 : (p.1 == k') = false := by simpa using hk'
          rw [getField_cons_ne p _ k' hk'2, getField_cons_ne p _ k' hk'2]
          exact ih

theorem getField_append_single_self (fs : List (String × JVal)) (k : String)
    (v : JVal) (h : fs.any (fun p => p.1 == k) = false) :
    getField (fs ++ [(k, v)]) k = some v := by
  induction fs with
  | nil => exact getField_cons_self (k, v) [] k (by simp)
  | cons p ps ih =>
      simp only [List.any_cons, Bool.or_eq_false_iff] at h
      rw [List.cons_append, getField_cons_ne p _ k h.1]
      exact ih h.2

theorem getField_append_single_ne (fs : List (String × JVal)) (k k' : String)
    (v : JVal) (h : k' ≠ k) :
    getField (fs ++ [(k, v)]) k' = getField fs k' := by
  induction fs with
  | nil =>
      have hkk : ((k, v).1 == k') = false := by
        simp only [beq_eq_false_iff_ne]
        exact fun hkk => h hkk.symm
      simp only [List.nil_append]
      rw [getField_cons_ne (k, v) [] k' hkk]
  | cons p ps ih =>
      by_cases hk' : (p.1 == k') = true
      · rw [List.cons_append, getField_cons_self p _ k' hk',
          getField_cons_self p _ k' hk']
      · have hk'2 : (p.1 == k') = false := by simpa using hk'
        rw [List.cons_append, getField_cons_ne p _ k' hk'2,
          getField_cons_ne p _ k' hk'2]
        exact ih

theorem getField_setField_self (fs : List (String × JVal)) (k : String)
    (v : JVal) : getField (setField fs k v) k = some v := by
  unfold setField
  by_cases hany : fs.any (fun p => p.1 == k) = true
  · rw [if_pos hany]
    exact getField_replaceKey_self fs k v hany
  · have hany2 : fs.any (fun p => p.1 == k) = false := Bool.eq_false_iff.mpr hany
    rw [if_neg hany]
    exact getField_append_single_self fs k v hany2

theorem getField_setField_ne (fs : List (String × JVal)) (k k' : String)
    (v : JVal) (h : k' ≠ k) :
    getField (setField fs k v) k' = getField fs k' := by
  unfold setField
  by_cases hany : fs.any (fun p => p.1 == k) = true
  · rw [if_pos hany]
    exact getField_replaceKey_ne fs k k' v h
  · rw [if_neg hany]
    exact getField_append_single_ne fs k k' v h

theorem removeField_cons_pos (p : String × JVal) (ps : List (String × JVal))
    (k : String) (h : (p.1 == k) = true) :
    removeField (p :: ps) k = removeField ps k := by
  simp [removeField, List.filter_cons, bne, h]

theorem removeField_cons_neg (p : String × JVal) (ps : List (String × JVal))
    (k : String) (h : (p.1 == k) = false) :
    removeField (p :: ps) k = p :: removeField ps k := by
  simp [removeField, List.filter_cons, bne, h]

theorem getField_removeField_self (fs : List (String × JVal)) (k : String) :
    getField (removeField fs k) k = none := by
  induction fs with
  | nil => rfl
  | cons p ps ih =>
      by_cases hk : (p.1 == k) = true
      · rw [removeField_cons_pos p ps k hk]
        exact ih
      · have hk2 : (p.1 == k) = false := by simpa using hk
        rw [removeField_cons_neg p ps k hk2, getField_cons_ne p _ k hk2]
        exact ih

theorem getField_removeField_ne (fs : List (String × JVal)) (k k' : String)
    (h : k' ≠ k) : getField (removeField fs k) k' = getField fs k' := by
  induction fs with
  | nil => rfl
  | cons p ps ih =>
      by_cases hk : (p.1 == k) = true
      · have hpk : (p.1 == k') = false := by
          have hp : p.1 = k := by simpa using hk
          simp only [beq_eq_false_iff_ne, hp]
          exact fun hkk => h hkk.symm
        rw [removeField_cons_pos p ps k hk, getField_cons_ne p _ k' hpk]
        exact ih
      · have hk2 : (p.1 == k) = false := by simpa using hk
        rw [removeField_cons_neg p ps k hk2]
        by_cases hk' : (p.1 == k') = true
        · rw [getField_cons_self p _ k' hk', getField_cons_self p _ k' hk']
        · have hk'2 : (p.1 == k') = false := by simpa using hk'
          rw [getField_cons_ne p _ k' hk'2, getField_cons_ne p _ k' hk'2]
          exact ih

theorem getField_isSome_setField (fs : List (String × JVal)) (k k0 : String)
    (v0 : JVal) (h : (getField fs k).isSome = true) :
    (getField (setField fs k0 v0) k).isSome = true := by
  by_cases hk : k = k0
  · subst hk
    simp [getField_setField_self]
  · rw [getField_setField_ne fs k0 k v0 hk]
    exact h

theorem getField_isSome_of_mem (fs : List (String × JVal)) (k : String)
    (v : JVal) (h : (k, v) ∈ fs) : (getField fs k).isSome = true := by
  induction fs with
  | nil => simp at h
  | cons p ps ih =>
      by_cases hk : (p.1 == k) = true
      · rw [getField_cons_self p _ k hk]
        rfl
      · have hk2 : (p.1 == k) = false := by simpa using hk
        rw [getField_cons_ne p _ k hk2]
        rcases List.mem_cons.mp h with h1 | h1
        · exact absurd (show (p.1 == k) = true by rw [← h1]; simp) hk
        · exact ih h1

theorem getField_schedStep_ne (fs : List (String × JVal)) (k : String)
    (hk : k ≠ "schedule") : getField (schedStep fs) k = getField fs k := by
  unfold schedStep
  split
  · split
    · exact getField_setField_ne fs "schedule" k _ hk
    · rfl
  · rfl

theorem getField_rigorStep_ne (fs : List (String × JVal)) (k : String)
    (hk : k ≠ "rigor_rank") : getField (rigorStep fs) k = getField fs k := by
  unfold rigorStep
  split
  · exact getField_setField_ne fs "rigor_rank" k _ hk
  · rfl

theorem isSome_schedStep (fs : List (String × JVal)) (k : String)
    (h : (getField fs k).isSome = true) :
    (getField (schedStep fs) k).isSome = true := by
  unfold schedStep
  split
  · split
    · exact getField_isSome_setField fs k "schedule" _ h
    · exact h
  · exact h

theorem isSome_rigorStep (fs : List (String × JVal)) (k : String)
    (h : (getField fs k).isSome = true) :
    (getField (rigorStep fs) k).isSome = true := by
  unfold rigorStep
  split
  · exact getField_isSome_setField fs k "rigor_rank" _ h
  · exact h

theorem keys_replaceKey (fs : List (String × JVal)) (k : String) (v : JVal) :
    (replaceKey fs k v).map Prod.fst = fs.map Prod.fst := by
  induction fs with
  | nil => rfl
  | cons p ps ih =>
      by_cases hk : (p.1 == k) = true
      · have hp : p.1 = k := by simpa using hk
        simp [replaceKey, hk, hp, ih]
      · have hk2 : (p.1 == k) = false := by simpa using hk
        simp [replaceKey, hk2, ih]

theorem nodup_keys_setField (fs : List (String × JVal)) (k : String)
    (v : JVal) (h : (fs.map Prod.fst).Nodup) :
    ((setField fs k v).map Prod.fst).Nodup := by
  unfold setField
  by_cases hany : fs.any (fun p => p.1 == k) = true
  · rw [if_pos hany, keys_replaceKey]
    exact h
  · rw [if_neg hany, List.map_append]
    apply List.Nodup.append h (by simp)
    intro a ha hb
    simp only [List.map_cons, List.map_nil, List.mem_singleton] at hb
    subst hb
    rcases List.mem_map.mp ha with ⟨p, hp, hpk⟩
    exact hany (List.any_eq_true.mpr ⟨p, hp, by simpa using hpk⟩)

theorem nodup_keys_removeField (fs : List (String × JVal)) (k : String)
    (h : (fs.map Prod.fst).Nodup) :
    ((removeField fs k).map Prod.fst).Nodup := by
  unfold removeField
  exact ((List.filter_sublist fs).map Prod.fst).nodup h

theorem nodup_keys_schedStep (fs : List (String × JVal))
    (h : (fs.map Prod.fst).Nodup) :
    ((schedStep fs).map Prod.fst).Nodup := by
  unfold schedStep
  split
  · split
    · exact nodup_keys_setField fs "schedule" _ h
    · exact h
  · exact h

theorem nodup_keys_rigorStep (fs : List (String × JVal))
    (h : (fs.map Prod.fst).Nodup) :
    ((rigorStep fs).map Prod.fst).Nodup := by
  unfold rigorStep
  split
  · exact nodup_keys_setField fs "rigor_rank" _ h
  · exact h

theorem nodup_keys_transformUpdateFields (body : List (String × JVal))
    (now : Int) (h : (body.map Prod.fst).Nodup) :
    ((transformUpdateFields body now).map Prod.fst).Nodup := by
  unfold transformUpdateFields
  exact nodup_keys_setField _ _ _
    (nodup_keys_rigorStep _ (nodup_keys_schedStep _
      (nodup_keys_removeField _ _ (nodup_keys_removeField _ _ h))))

/-- The update set never contains the reserved `_id` and `type` keys and
always carries `updatedAt = now`. -/
theorem transformUpdateFields_reserved (body : List (String × JVal))
    (now : Int) :
    getField (transformUpdateFields body now) "_id" = none ∧
    getField (transformUpdateFields body now) "type" = none ∧
    getField (transformUpdateFields body now) "updatedAt"
      = some (.date now) := by
  unfold transformUpdateFields
  refine ⟨?_, ?_, getField_setField_self _ _ _⟩
  · rw [getField_setField_ne _ _ _ _ (by decide),
      getField_rigorStep_ne _ _ (by decide),
      getField_schedStep_ne _ _ (by decide),
      getField_removeField_ne _ _ _ (by decide),
      getField_removeField_self]
  · rw [getField_setField_ne _ _ _ _ (by decide),
      getField_rigorStep_ne _ _ (by decide),
      getField_schedStep_ne _ _ (by decide),
      getField_removeField_self]

/-- Every non-reserved key of the request body survives into the update
set. -/
theorem transformUpdateFields_isSome (body : List (String × JVal))
    (now : Int) (k : String) (v : JVal) (hmem : (k, v) ∈ body)
    (h1 : k ≠ "_id") (h2 : k ≠ "type") :
    (getField (transformUpdateFields body now) k).isSome = true := by
  unfold transformUpdateFields
  apply getField_isSome_setField
  apply isSome_rigorStep
  apply isSome_schedStep
  rw [getField_removeField_ne _ _ _ h2, getField_removeField_ne _ _ _ h1]
  exact getField_isSome_of_mem body k v hmem

/-- The `$set` lookup law: on an update set without duplicate keys, a
lookup in the merged fields is the update-set lookup, falling back to the
original fields. -/
theorem getField_applySetFields (us fs : List (String × JVal)) (k : String)
    (h : (us.map Prod.fst).Nodup) :
    getField (applySetFields fs us) k = mergeLookup (getField us k) (getField fs k) := by
  induction us generalizing fs with
  | nil => simp [applySetFields, getField, mergeLookup]
  | cons p ps ih =>
      simp only [List.map_cons, List.nodup_cons] at h
      have step : applySetFields fs (p :: ps)
          = applySetFields (setField fs p.1 p.2) ps := rfl
      rw [step, ih _ h.2]
      by_cases hk : p.1 == k
      · have hp : p.1 = k := by simpa using hk
        subst hp
        have hnone : getField ps p.1 = none := by
          cases hg : getField ps p.1 with
          | none => rfl
          | some w =>
              exfalso
              unfold getField at hg
              cases hf : ps.find? (fun q => q.1 == p.1) with
              | none => rw [hf] at hg; simp at hg
              | some q =>
                  have hqm := List.find?_some hf
                  have hmem := List.mem_of_find?_eq_some hf
                  have : q.1 = p.1 := by simpa using hqm
                  exact h.1 (this ▸ List.mem_map_of_mem Prod.fst hmem)
        rw [hnone, getField_setField_self,
          getField_cons_self p ps p.1 (by simp)]
        rfl
      · have hne : k ≠ p.1 := by
          intro hkk
          exact hk (by simp [hkk])
        rw [getField_setField_ne fs p.1 k p.2 hne]
        have hk2 : (p.1 == k) = false := by simpa using hk
        rw [getField_cons_ne p ps k hk2]

theorem findDoc_cons_pos (e : EventDoc) (es : Store) (id : String)
    (h : (e.oid == id) = true) : findDoc (e :: es) id = some e := by
  simp [findDoc, List.find?_cons_of_pos, h]

theorem findDoc_cons_neg (e : EventDoc) (es : Store) (id : String)
    (h : (e.oid == id) = false) : findDoc (e :: es) id = findDoc es id := by
  simp [findDoc, List.find?_cons_of_neg, h]

/-- `find?` on an appended fresh document. -/
theorem findDoc_append_fresh (store : Store) (id : String)
    (fs : List (String × JVal)) (h : ∀ e ∈ store, e.oid ≠ id) :
    findDoc (store ++ [⟨id, fs⟩]) id = some ⟨id, fs⟩ := by
  induction store with
  | nil => exact findDoc_cons_pos ⟨id, fs⟩ [] id (by simp)
  | cons e es ih =>
      have he : (e.oid == id) = false := by
        simpa using h e (List.mem_cons_self e es)
      rw [List.cons_append, findDoc_cons_neg e _ id he]
      exact ih (fun x hx => h x (List.mem_cons_of_mem e hx))

theorem findDoc_updateFirstDoc (store : Store) (id : String)
    (us : List (String × JVal)) (d : EventDoc)
    (h : findDoc store id = some d) :
    findDoc (updateFirstDoc store id us) id
      = some ⟨d.oid, applySetFields d.fields us⟩ := by
  induction store with
  | nil => simp [findDoc] at h
  | cons e es ih =>
      by_cases he : (e.oid == id) = true
      · rw [findDoc_cons_pos e es id he] at h
        have hd : e = d := by injection h
        subst hd
        have hstep : updateFirstDoc (e :: es) id us
            = { e with fields := applySetFields e.fields us } :: es := by
          simp [updateFirstDoc, he]
        rw [hstep]
        exact findDoc_cons_pos _ es id he
      · have he2 : (e.oid == id) = false := by simpa using he
        rw [findDoc_cons_neg e es id he2] at h
        have hstep : updateFirstDoc (e :: es) id us
            = e :: updateFirstDoc es id us := by
          simp [updateFirstDoc, he2]
        rw [hstep, findDoc_cons_neg e _ id he2]
        exact ih h

theorem oid_eq_of_findDoc (store : Store) (id : String) (d : EventDoc)
    (h : findDoc store id = some d) : d.oid = id := by
  have := List.find?_some h
  simpa using this

/-- A valid ObjectId string is 24 characters long, hence non-empty. -/
theorem valid_oid_ne_empty (s : String) (h : isValidObjectId s = true) :
    s ≠ "" := by
  intro he
  subst he
  simp [isValidObjectId] at h

theorem truthy_of_strOptOk (o : Option JVal) (h : strOptOk o = true) :
    ∀ v, o = some v → truthy v = true := by
  intro v hv
  subst hv
  cases v <;> simp_all [strOptOk, truthy]

theorem truthy_of_objOptOk (o : Option JVal) (h : objOptOk o = true) :
    ∀ v, o = some v → truthy v = true := by
  intro v hv
  subst hv
  cases v <;> simp_all [objOptOk, truthy]

theorem truthyOpt_of_nameOk (o : Option JVal) (h : nameOk o = true) :
    truthyOpt o = true := by
  cases o with
  | none => simp [nameOk] at h
  | some v => cases v <;> simp_all [nameOk, truthyOpt, truthy]

theorem orElseJS_eq_getD (o : Option JVal) (d : JVal)
    (h : ∀ v, o = some v → truthy v = true) : orElseJS o d = o.getD d := by
  cases o with
  | none => rfl
  | some v => simp [orElseJS, h v rfl]

theorem schedInit_eq_getD (o : Option JVal) (now : Int)
    (h : dateOptOk o = true) : schedInit o now = o.getD (.date now) := by
  cases o with
  | none => rfl
  | some v => cases v <;> simp_all [dateOptOk, schedInit, truthy, jsNewDateOf]

theorem rigorInit_eq_getD (o : Option JVal) (h : numOptOk o = true) :
    rigorInit o = o.getD (.num 0) := by
  cases o with
  | none => rfl
  | some v =>
      cases v with
      | num n =>
          by_cases hn : n = 0
          · subst hn
            simp [rigorInit, truthy, parseIntJS]
          · simp [rigorInit, truthy, parseIntJS, hn]
      | null => simp [numOptOk] at h
      | nan => simp [numOptOk] at h
      | bool b => simp [numOptOk] at h
      | str s => simp [numOptOk] at h
      | date t => simp [numOptOk] at h
      | dateFromString s => simp [numOptOk] at h
      | arr xs => simp [numOptOk] at h
      | obj fs => simp [numOptOk] at h

theorem attendeesInit_eq_getD (o : Option JVal) (h : arrOptOk o = true) :
    attendeesInit o = o.getD (.arr []) := by
  cases o with
  | none => rfl
  | some v => cases v <;> simp_all [arrOptOk, attendeesInit]

/-- On a well-typed Create body, the code's defaulting/coercion pipeline
degenerates to plain defaulting of the absent fields. -/
theorem buildEventDocument_wellTyped (b : CreateBody) (now : Int)
    (hwt : wellTypedCreate b = true) :
    buildEventDocument b now
      = [("type", .str "event"), ("uid", b.uid.getD .null),
         ("name", b.name.getD .null), ("tagline", b.tagline.getD (.str "")),
         ("schedule", b.schedule.getD (.date now)),
         ("description", b.description.getD (.str "")),
         ("files", b.files.getD (.obj [("image", .null)])),
         ("moderator", b.moderator.getD .null),
         ("category", b.category.getD (.str "")),
         ("sub_category", b.sub_category.getD (.str "")),
         ("rigor_rank", b.rigor_rank.getD (.num 0)),
         ("attendees", b.attendees.getD (.arr [])),
         ("createdAt", .date now), ("updatedAt", .date now)] := by
  simp only [wellTypedCreate, Bool.and_eq_true] at hwt
  obtain ⟨⟨⟨⟨⟨⟨⟨⟨⟨⟨h1, h2⟩, h3⟩, h4⟩, h5⟩, h6⟩, h7⟩, h8⟩, h9⟩, h10⟩, h11⟩ := hwt
  unfold buildEventDocument
  rw [orElseJS_eq_getD _ _ (truthy_of_strOptOk _ h2),
    orElseJS_eq_getD _ _ (truthy_of_strOptOk _ h3),
    schedInit_eq_getD _ _ h4,
    orElseJS_eq_getD _ _ (truthy_of_strOptOk _ h5),
    orElseJS_eq_getD _ _ (truthy_of_objOptOk _ h6),
    orElseJS_eq_getD _ _ (truthy_of_strOptOk _ h7),
    orElseJS_eq_getD _ _ (truthy_of_strOptOk _ h8),
    orElseJS_eq_getD _ _ (truthy_of_strOptOk _ h9),
    rigorInit_eq_getD _ h10,
    attendeesInit_eq_getD _ h11]

/-- A body whose keys are all reserved is emptied by the two `delete`
statements. -/
theorem removeField_all_reserved (body : List (String × JVal))
    (hkeys : ∀ p ∈ body, p.1 = "_id" ∨ p.1 = "type") :
    removeField (removeField body "_id") "type" = [] := by
  induction body with
  | nil => rfl
  | cons p ps ih =>
      have hps : ∀ q ∈ ps, q.1 = "_id" ∨ q.1 = "type" :=
        fun q hq => hkeys q (List.mem_cons_of_mem p hq)
      rcases hkeys p (List.mem_cons_self p ps) with h | h
      · rw [removeField_cons_pos p ps "_id" (by simp [h])]
        exact ih hps
      · by_cases hid : (p.1 == "_id") = true
        · rw [removeField_cons_pos p ps "_id" hid]
          exact ih hps
        · rw [removeField_cons_neg p ps "_id" (by simpa using hid),
            removeField_cons_pos p _ "type" (by simp [h])]
          exact ih hps

/-! ### Claim theorems -/

/-- C2: for every Create request whose body contains only a non-empty
name, the inserted document has `type = "event"`, `tagline = ""`,
`attendees = []`, `rigor_rank = 0`, `files = { image: null }`, and
`createdAt` equal to `updatedAt` at the creation instant. -/
theorem claim_C2_create_defaults (s : String) (hs : s ≠ "") (mode : String)
    (now : Int) (newId : String) (store : Store) :
    (createEvent mode none { name := some (.str s) } now newId store).resp.status = 201 ∧
    (createEvent mode none { name := some (.str s) } now newId store).store
      = store ++ [⟨newId, buildEventDocument { name := some (.str s) } now⟩] ∧
    getField (buildEventDocument { name := some (.str s) } now) "type"
      = some (.str "event") ∧
    getField (buildEventDocument { name := some (.str s) } now) "tagline"
      = some (.str "") ∧
    getField (buildEventDocument { name := some (.str s) } now) "attendees"
      = some (.arr []) ∧
    getField (buildEventDocument { name := some (.str s) } now) "rigor_rank"
      = some (.num 0) ∧
    getField (buildEventDocument { name := some (.str s) } now) "files"
      = some (.obj [("image", .null)]) ∧
    getField (buildEventDocument { name := some (.str s) } now) "createdAt"
      = some (.date now) ∧
    getField (buildEventDocument { name := some (.str s) } now) "updatedAt"
      = getField (buildEventDocument { name := some (.str s) } now) "createdAt" := by
  have hname : truthyOpt (some (.str s) : Option JVal) = true := by
    simp [truthyOpt, truthy, hs]
  refine ⟨?_, ?_, ?_, ?_, ?_, ?_, ?_, ?_, ?_⟩
  · simp [createEvent, hname]
  · simp [createEvent, hname]
  all_goals rfl

/-- C2 witness at a concrete input. -/
theorem claim_C2_create_defaults_witness :
    (createEvent "production" none { name := some (.str "X") } 7
        "0123456789abcdef01234567" []).resp.status = 201 ∧
    getField (buildEventDocument { name := some (.str "X") } 7) "rigor_rank"
      = some (.num 0) ∧
    getField (buildEventDocument { name := some (.str "X") } 7) "updatedAt"
      = getField (buildEventDocument { name := some (.str "X") } 7) "createdAt" := by
  have h := claim_C2_create_defaults "X" (by decide) "production" 7
    "0123456789abcdef01234567" []
  exact ⟨h.1, h.2.2.2.2.2.1, h.2.2.2.2.2.2.2.2⟩

/-- C8: a Create whose name is absent or empty yields a 400
ValidationError and leaves the store untouched. -/
theorem claim_C8_create_missing_name (b : CreateBody)
    (h : b.name = none ∨ b.name = some (.str "")) (mode : String)
    (exc : Option String) (now : Int) (newId : String) (store : Store) :
    (createEvent mode exc b now newId store).resp.status = 400 ∧
    (createEvent mode exc b now newId store).resp.message
      = some "Event name is required" ∧
    (createEvent mode exc b now newId store).store = store ∧
    (createEvent mode exc b now newId store).dbCalls = 0 := by
  have hname : truthyOpt b.name = false := by
    rcases h with h | h <;> simp [h, truthyOpt, truthy]
  refine ⟨?_, ?_, ?_, ?_⟩ <;> simp [createEvent, hname, resp400]

/-- C8 witness at a concrete input. -/
theorem claim_C8_create_missing_name_witness :
    (createEvent "production" none { tagline := some (.str "t") } 0
        "0123456789abcdef01234567" []).resp.status = 400 ∧
    (createEvent "production" none { name := some (.str "") } 0
        "0123456789abcdef01234567" []).store = [] := by
  have h1 := claim_C8_create_missing_name { tagline := some (.str "t") }
    (Or.inl rfl) "production" none 0 "0123456789abcdef01234567" []
  have h2 := claim_C8_create_missing_name { name := some (.str "") }
    (Or.inr rfl) "production" none 0 "0123456789abcdef01234567" []
  exact ⟨h1.1, h2.2.2.1⟩

/-- C4 counterexample: with `NODE_ENV = "production"`, a store fault inside
`getEventById` still produces an envelope carrying the raw error detail —
the handlers' catch blocks attach `error.message` unconditionally, so the
detail is not restricted to non-production mode. -/
theorem claim_C4_counterexample :
    (getEventById "production" (some "db down")
        (some "0123456789abcdef01234567") []).resp.status = 500 ∧
    (getEventById "production" (some "db down")
        (some "0123456789abcdef01234567") []).resp.error = some "db down" ∧
    (getEventById "production" (some "db down")
        (some "0123456789abcdef01234567") []).resp.error ≠ none := by
  exact ⟨rfl, rfl, fun h => Option.noConfusion h⟩

/-- C4, amended: every 500 envelope produced by the five handlers carries
the raw error detail regardless of the mode; only the server's global error
trap conditions the detail — and there on the mode being exactly
"development", not on it being non-production. -/
theorem claim_C4_amended (mode m : String) (id : String)
    (hid : isValidObjectId id = true) (body : List (String × JVal))
    (hbody : body ≠ []) (s : String) (hs : s ≠ "") (now : Int)
    (newId : String) (store : Store) :
    (getEventById mode (some m) (some id) store).resp = resp500 m ∧
    (getLatestEvents mode (some m) none none store).resp = resp500 m ∧
    (createEvent mode (some m) { name := some (.str s) } now newId store).resp
      = resp500 m ∧
    (updateEvent mode (some m) (some id) body now store).resp = resp500 m ∧
    (deleteEvent mode (some m) (some id) store).resp = resp500 m ∧
    (resp500 m).error = some m ∧
    (globalErrorHandler mode m).error
      = (if mode = "development" then some m else none) := by
  have hne : id ≠ "" := valid_oid_ne_empty id hid
  have hnz : body.length ≠ 0 := by
    intro h
    exact hbody (List.length_eq_zero.mp h)
  have hname : truthyOpt (some (.str s) : Option JVal) = true := by
    simp [truthyOpt, truthy, hs]
  refine ⟨?_, ?_, ?_, ?_, ?_, rfl, rfl⟩
  · simp [getEventById, hne, hid]
  · simp [getLatestEvents]
  · simp [createEvent, hname]
  · simp [updateEvent, hne, hid, hnz]
  · simp [deleteEvent, hne, hid]

/-- C4 amended witness at concrete inputs. -/
theorem claim_C4_amended_witness :
    (updateEvent "production" (some "boom") (some "0123456789abcdef01234567")
        [("name", .str "x")] 0 []).resp = resp500 "boom" ∧
    (globalErrorHandler "production" "boom").error = none := by
  have h := claim_C4_amended "production" "boom" "0123456789abcdef01234567"
    (by decide) [("name", .str "x")] (by simp) "X" (by decide) 0
    "0123456789abcdef01234567" []
  refine ⟨h.2.2.2.1, ?_⟩
  rw [h.2.2.2.2.2.2]
  simp

/-- C5 counterexample: a Create input with `rigor_rank` present but not
parseable stores `NaN`, which is not an integer. -/
theorem claim_C5_counterexample :
    (createEvent "production" none
        { name := some (.str "X"), rigor_rank := some (.str "abc") } 0
        "0123456789abcdef01234567" []).store
      = [⟨"0123456789abcdef01234567",
          buildEventDocument
            { name := some (.str "X"), rigor_rank := some (.str "abc") } 0⟩] ∧
    getField
        (buildEventDocument
          { name := some (.str "X"), rigor_rank := some (.str "abc") } 0)
        "rigor_rank" = some .nan ∧
    isIntJVal .nan = false := by
  exact ⟨rfl, rfl, rfl⟩

/-- C5, amended: when `rigor_rank` is present and `parseInt` succeeds on
it, the stored value is that integer (Create stores the integer `0` when
the present value is falsy); when `parseInt` fails the stored value is
`NaN`, which is not an integer. -/
theorem claim_C5_amended (v : JVal) (n : Int) (hp : parseIntJS v = some n)
    (b : CreateBody) (hb : b.rigor_rank = some v)
    (hname : truthyOpt b.name = true) (body : List (String × JVal))
    (hbody : getField body "rigor_rank" = some v) (mode : String) (now : Int)
    (newId : String) (store : Store) :
    (truthy v = true →
      getField (buildEventDocument b now) "rigor_rank" = some (.num n)) ∧
    (truthy v = false →
      getField (buildEventDocument b now) "rigor_rank" = some (.num 0)) ∧
    (createEvent mode none b now newId store).store
      = store ++ [⟨newId, buildEventDocument b now⟩] ∧
    getField (transformUpdateFields body now) "rigor_rank" = some (.num n) ∧
    isIntJVal (.num n) = true ∧ isIntJVal (.num 0) = true := by
  refine ⟨?_, ?_, ?_, ?_, rfl, rfl⟩
  · intro ht
    simp [buildEventDocument, rigorInit, getField, hb, hp, ht]
  · intro ht
    simp [buildEventDocument, rigorInit, getField, hb, ht]
  · simp [createEvent, hname]
  · have h1 : getField (removeField (removeField body "_id") "type") "rigor_rank"
        = some v := by
      rw [getField_removeField_ne _ _ _ (by decide),
        getField_removeField_ne _ _ _ (by decide)]
      exact hbody
    have h2 : getField (schedStep (removeField (removeField body "_id") "type"))
        "rigor_rank" = some v := by
      rw [getField_schedStep_ne _ _ (by decide)]
      exact h1
    unfold transformUpdateFields
    rw [getField_setField_ne _ _ _ _ (by decide)]
    unfold rigorStep
    simp only [h2, hp]
    exact getField_setField_self _ _ _

/-- C5 amended witness at a concrete input. -/
theorem claim_C5_amended_witness :
    getField (buildEventDocument
        { name := some (.str "X"), rigor_rank := some (.str "7") } 0)
      "rigor_rank" = some (.num 7) ∧
    getField (transformUpdateFields [("rigor_rank", .str "7")] 0) "rigor_rank"
      = some (.num 7) := by
  have h := claim_C5_amended (.str "7") 7 (by decide)
    { name := some (.str "X"), rigor_rank := some (.str "7") } rfl
    (by decide) [("rigor_rank", .str "7")] rfl "production" 0
    "0123456789abcdef01234567" []
  exact ⟨h.1 (by decide), h.2.2.2.1⟩

/-- C7 counterexample: the query value "3.9" does not denote a positive
integer, yet the list handler accepts it (parseInt truncates it to 3),
returns 200 and queries the store — rather than returning 400 with no
store query. -/
theorem claim_C7_counterexample :
    denotesPosInt "3.9" = false ∧
    (getLatestEvents "production" none (some "3.9") (some "1")
        [⟨"0123456789abcdef01234567", []⟩]).resp.status = 200 ∧
    (getLatestEvents "production" none (some "3.9") (some "1")
        [⟨"0123456789abcdef01234567", []⟩]).dbCalls = 2 := by
  exact ⟨by decide, rfl, rfl⟩

/-- C7, amended: the list handler returns 400 and performs no store query
exactly when `parseInt(limit, 10)` is NaN or less than 1, and — when the
limit passes that check — when `parseInt(page, 10)` is NaN or less than 1;
values such as "3.9" whose parse truncates to a positive integer are
accepted. -/
theorem claim_C7_amended (ls ps : String) (mode : String)
    (exc : Option String) (store : Store) :
    (parsesPositive ls = false →
      (getLatestEvents mode exc (some ls) (some ps) store).resp.status = 400 ∧
      (getLatestEvents mode exc (some ls) (some ps) store).resp.message
        = some "Limit must be a positive integer" ∧
      (getLatestEvents mode exc (some ls) (some ps) store).store = store ∧
      (getLatestEvents mode exc (some ls) (some ps) store).dbCalls = 0) ∧
    (parsesPositive ls = true → parsesPositive ps = false →
      (getLatestEvents mode exc (some ls) (some ps) store).resp.status = 400 ∧
      (getLatestEvents mode exc (some ls) (some ps) store).resp.message
        = some "Page must be a positive integer" ∧
      (getLatestEvents mode exc (some ls) (some ps) store).store = store ∧
      (getLatestEvents mode exc (some ls) (some ps) store).dbCalls = 0) := by
  constructor
  · intro hl
    cases hpl : parseIntStr ls with
    | none =>
        refine ⟨?_, ?_, ?_, ?_⟩ <;> simp [getLatestEvents, hpl, resp400]
    | some n =>
        have hn : n < 1 := by
          by_contra hge
          have : parsesPositive ls = true := by
            simp [parsesPositive, hpl]
            omega
          rw [this] at hl
          cases hl
        refine ⟨?_, ?_, ?_, ?_⟩ <;>
          simp [getLatestEvents, hpl, hn, resp400]
  · intro hl hp
    cases hpl : parseIntStr ls with
    | none => rw [parsesPositive, hpl] at hl; cases hl
    | some n =>
        have hn : 1 ≤ n := by
          rw [parsesPositive, hpl] at hl
          simpa using hl
        have hn2 : ¬ n < 1 := by omega
        cases hpp : parseIntStr ps with
        | none =>
            refine ⟨?_, ?_, ?_, ?_⟩ <;>
              simp [getLatestEvents, hpl, hpp, hn2, resp400]
        | some q =>
            have hq : q < 1 := by
              by_contra hge
              have : parsesPositive ps = true := by
                simp [parsesPositive, hpp]
                omega
              rw [this] at hp
              cases hp
            refine ⟨?_, ?_, ?_, ?_⟩ <;>
              simp [getLatestEvents, hpl, hpp, hn2, hq, resp400]

/-- C7 amended witness at concrete inputs. -/
theorem claim_C7_amended_witness :
    parsesPositive "0" = false ∧
    (getLatestEvents "production" none (some "0") (some "1") []).resp.status
      = 400 ∧
    parsesPositive "abc" = false ∧
    (getLatestEvents "production" none (some "5") (some "abc") []).resp.status
      = 400 := by
  have h1 := (claim_C7_amended "0" "1" "production" none []).1 (by decide)
  have h2 := (claim_C7_amended "5" "abc" "production" none []).2 (by decide)
    (by decide)
  exact ⟨by decide, h1.1, by decide, h2.1⟩

/-- C3: for positive-integer limit L and page P, the list handler skips
exactly (P-1)*L documents of the schedule-descending order, returns at
most L documents, and reports currentPage = P, limit = L, totalEvents = N
and totalPages = ceil(N / L). -/
theorem claim_C3_pagination (ls ps : String) (L P : Nat)
    (hl : parseIntStr ls = some (L : Int)) (hL : 1 ≤ L)
    (hp : parseIntStr ps = some (P : Int)) (hP : 1 ≤ P)
    (mode : String) (store : Store) :
    (getLatestEvents mode none (some ls) (some ps) store).resp.status = 200 ∧
    (getLatestEvents mode none (some ls) (some ps) store).resp.data
      = some (.arr ((((sortByScheduleDesc store).drop ((P - 1) * L)).take L).map
          docToJVal)) ∧
    ((((sortByScheduleDesc store).drop ((P - 1) * L)).take L).map
        docToJVal).length ≤ L ∧
    (getLatestEvents mode none (some ls) (some ps) store).resp.pagination
      = some ⟨P, L, store.length, store.length ⌈/⌉ L⟩ := by
  have hL2 : ¬ ((L : Int) < 1) := by
    rw [not_lt]
    exact_mod_cast hL
  have hP2 : ¬ ((P : Int) < 1) := by
    rw [not_lt]
    exact_mod_cast hP
  have hout : getLatestEvents mode none (some ls) (some ps) store
      = ⟨{ status := 200, success := true,
           data := some (.arr ((((sortByScheduleDesc store).drop
             ((P - 1) * L)).take L).map docToJVal)),
           pagination := some ⟨P, L, store.length,
             (store.length + L - 1) / L⟩ },
         store, 2⟩ := by
    simp [getLatestEvents, hl, hp, hL2, hP2]
  refine ⟨?_, ?_, ?_, ?_⟩
  · rw [hout]
  · rw [hout]
  · rw [List.length_map, List.length_take]
    exact min_le_left _ _
  · rw [hout, Nat.ceilDiv_eq_add_pred_div]

/-- C3 witness: limit 2, page 2 over a 3-document store. -/
theorem claim_C3_pagination_witness :
    (getLatestEvents "production" none (some "2") (some "2")
        [⟨"a", [("schedule", .date 1)]⟩, ⟨"b", [("schedule", .date 9)]⟩,
         ⟨"c", [("schedule", .date 5)]⟩]).resp.status = 200 ∧
    (getLatestEvents "production" none (some "2") (some "2")
        [⟨"a", [("schedule", .date 1)]⟩, ⟨"b", [("schedule", .date 9)]⟩,
         ⟨"c", [("schedule", .date 5)]⟩]).resp.pagination
      = some ⟨2, 2, 3, 2⟩ := by
  have h := claim_C3_pagination "2" "2" 2 2 rfl (by decide) rfl (by decide)
    "production"
    [⟨"a", [("schedule", .date 1)]⟩, ⟨"b", [("schedule", .date 9)]⟩,
     ⟨"c", [("schedule", .date 5)]⟩]
  refine ⟨h.1, ?_⟩
  rw [h.2.2.2]
  rfl

/-- C1 counterexample: the empty string is an identifier string that is not
a well-formed store key, yet Get-by-identifier answers it with the message
"Event ID is required" (the `!id` guard fires first), not with
"Invalid Event ID format" as the claim requires for every malformed
identifier. -/
theorem claim_C1_counterexample :
    isValidObjectId "" = false ∧
    (getEventById "production" none (some "") []).resp.status = 400 ∧
    (getEventById "production" none (some "") []).resp.message
      = some "Event ID is required" ∧
    (getEventById "production" none (some "") []).resp.message
      ≠ some "Invalid Event ID format" := by
  exact ⟨by decide, rfl, rfl, by decide⟩

/-- C1, amended: for every non-empty identifier that is not a well-formed
store key, Get/Update/Delete return 400 "Invalid Event ID format" without
touching the store (an empty identifier instead yields 400 "Event ID is
required"); for every well-formed identifier matching no stored document,
Get and Delete return 404, and Update returns 404 provided its body is
non-empty, absent store faults. -/
theorem claim_C1_amended (id : String) (store : Store) (mode : String)
    (exc : Option String) (body : List (String × JVal)) (now : Int) :
    (id ≠ "" → isValidObjectId id = false →
      ((getEventById mode exc (some id) store).resp.status = 400 ∧
       (getEventById mode exc (some id) store).resp.message
         = some "Invalid Event ID format" ∧
       (getEventById mode exc (some id) store).store = store ∧
       (getEventById mode exc (some id) store).dbCalls = 0) ∧
      ((updateEvent mode exc (some id) body now store).resp.status = 400 ∧
       (updateEvent mode exc (some id) body now store).resp.message
         = some "Invalid Event ID format" ∧
       (updateEvent mode exc (some id) body now store).store = store ∧
       (updateEvent mode exc (some id) body now store).dbCalls = 0) ∧
      ((deleteEvent mode exc (some id) store).resp.status = 400 ∧
       (deleteEvent mode exc (some id) store).resp.message
         = some "Invalid Event ID format" ∧
       (deleteEvent mode exc (some id) store).store = store ∧
       (deleteEvent mode exc (some id) store).dbCalls = 0)) ∧
    ((getEventById mode exc (some "") store).resp.status = 400 ∧
     (getEventById mode exc (some "") store).resp.message
       = some "Event ID is required" ∧
     (updateEvent mode exc (some "") body now store).resp.message
       = some "Event ID is required" ∧
     (deleteEvent mode exc (some "") store).resp.message
       = some "Event ID is required") ∧
    (isValidObjectId id = true → findDoc store id = none →
      ((getEventById mode none (some id) store).resp.status = 404 ∧
       (getEventById mode none (some id) store).resp.message
         = some "Event not found") ∧
      (body ≠ [] →
        (updateEvent mode none (some id) body now store).resp.status = 404 ∧
        (updateEvent mode none (some id) body now store).resp.message
          = some "Event not found") ∧
      ((deleteEvent mode none (some id) store).resp.status = 404 ∧
       (deleteEvent mode none (some id) store).resp.message
         = some "Event not found")) := by
  refine ⟨?_, ⟨rfl, rfl, rfl, rfl⟩, ?_⟩
  · intro hne hinv
    refine ⟨⟨?_, ?_, ?_, ?_⟩, ⟨?_, ?_, ?_, ?_⟩, ⟨?_, ?_, ?_, ?_⟩⟩ <;>
      simp [getEventById, updateEvent, deleteEvent, hne, hinv, resp400]
  · intro hval hfind
    have hne : id ≠ "" := valid_oid_ne_empty id hval
    refine ⟨⟨?_, ?_⟩, ?_, ⟨?_, ?_⟩⟩
    · simp [getEventById, hne, hval, hfind, resp404]
    · simp [getEventById, hne, hval, hfind, resp404]
    · intro hbody
      have hnz : body.length ≠ 0 := by
        intro h
        exact hbody (List.length_eq_zero.mp h)
      constructor <;> simp [updateEvent, hne, hval, hfind, hnz, resp404]
    · simp [deleteEvent, hne, hval, hfind, resp404]
    · simp [deleteEvent, hne, hval, hfind, resp404]

/-- C1 amended witness at concrete inputs. -/
theorem claim_C1_amended_witness :
    (getEventById "production" none (some "zzzzzzzzzzzzzzzzzzzzzzzz")
        []).resp.message = some "Invalid Event ID format" ∧
    (updateEvent "production" none (some "zzzzzzzzzzzzzzzzzzzzzzzz")
        [("name", .str "x")] 0 []).store = [] ∧
    (deleteEvent "production" none (some "0123456789abcdef01234567")
        []).resp.status = 404 := by
  have h1 := (claim_C1_amended "zzzzzzzzzzzzzzzzzzzzzzzz" [] "production"
    none [("name", .str "x")] 0).1 (by decide) (by decide)
  have h2 := (claim_C1_amended "0123456789abcdef01234567" [] "production"
    none [("name", .str "x")] 0).2.2 (by decide) rfl
  exact ⟨h1.1.2.1, h1.2.1.2.2.1, h2.2.2.1⟩

/-- C6: an Update never mutates the stored `_id` or `type` (the reserved
keys are silently dropped from the update set even when present in the
payload), while every other payload key is written into the document and
the untouched fields are preserved. -/
theorem claim_C6_update_frame (id : String) (hid : isValidObjectId id = true)
    (body : List (String × JVal)) (hne : body ≠ [])
    (hnd : (body.map Prod.fst).Nodup) (now : Int) (mode : String)
    (store : Store) (d : EventDoc) (hfind : findDoc store id = some d) :
    (updateEvent mode none (some id) body now store).resp.status = 200 ∧
    getField (transformUpdateFields body now) "_id" = none ∧
    getField (transformUpdateFields body now) "type" = none ∧
    findDoc (updateEvent mode none (some id) body now store).store id
      = some ⟨d.oid, applySetFields d.fields (transformUpdateFields body now)⟩ ∧
    getField (applySetFields d.fields (transformUpdateFields body now)) "_id"
      = getField d.fields "_id" ∧
    getField (applySetFields d.fields (transformUpdateFields body now)) "type"
      = getField d.fields "type" ∧
    (∀ k, getField (applySetFields d.fields (transformUpdateFields body now)) k
      = mergeLookup (getField (transformUpdateFields body now) k)
          (getField d.fields k)) ∧
    (∀ k v, (k, v) ∈ body → k ≠ "_id" → k ≠ "type" →
      (getField (transformUpdateFields body now) k).isSome = true) := by
  have hne2 : id ≠ "" := valid_oid_ne_empty id hid
  have hnz : body.length ≠ 0 := by
    intro h
    exact hne (List.length_eq_zero.mp h)
  have hres := transformUpdateFields_reserved body now
  have hndtf := nodup_keys_transformUpdateFields body now hnd
  have hmerge := fun k => getField_applySetFields
    (transformUpdateFields body now) d.fields k hndtf
  have hstore : (updateEvent mode none (some id) body now store).store
      = updateFirstDoc store id (transformUpdateFields body now) := by
    simp [updateEvent, hne2, hid, hnz, hfind]
  refine ⟨?_, hres.1, hres.2.1, ?_, ?_, ?_, hmerge, ?_⟩
  · simp [updateEvent, hne2, hid, hnz, hfind]
  · rw [hstore]
    exact findDoc_updateFirstDoc store id _ d hfind
  · rw [hmerge "_id", hres.1]
    rfl
  · rw [hmerge "type", hres.2.1]
    rfl
  · intro k v hmem h1 h2
    exact transformUpdateFields_isSome body now k v hmem h1 h2

/-- C6 witness at a concrete input: the payload tries to set `type` (and
does set `name`); the stored `type` survives. -/
theorem claim_C6_update_frame_witness :
    (updateEvent "production" none (some "0123456789abcdef01234567")
        [("name", .str "N"), ("type", .str "hack")] 5
        [⟨"0123456789abcdef01234567",
          [("type", .str "event"), ("name", .str "O")]⟩]).resp.status = 200 ∧
    getField
      (applySetFields [("type", .str "event"), ("name", .str "O")]
        (transformUpdateFields [("name", .str "N"), ("type", .str "hack")] 5))
      "type" = some (.str "event") := by
  have h := claim_C6_update_frame "0123456789abcdef01234567" (by decide)
    [("name", .str "N"), ("type", .str "hack")] (by simp) (by decide) 5
    "production"
    [⟨"0123456789abcdef01234567", [("type", .str "event"), ("name", .str "O")]⟩]
    ⟨"0123456789abcdef01234567", [("type", .str "event"), ("name", .str "O")]⟩
    rfl
  refine ⟨h.1, ?_⟩
  rw [h.2.2.2.2.2.1]
  rfl

/-- C10: an Update whose non-empty body contains only the reserved keys
`_id`/`type` passes the emptiness check (it runs before the keys are
dropped), succeeds with 200, and the only field written is `updatedAt`. -/
theorem claim_C10_reserved_only_update (id : String)
    (hid : isValidObjectId id = true) (body : List (String × JVal))
    (hne : body ≠ []) (hkeys : ∀ p ∈ body, p.1 = "_id" ∨ p.1 = "type")
    (now : Int) (mode : String) (store : Store) (d : EventDoc)
    (hfind : findDoc store id = some d) :
    transformUpdateFields body now = [("updatedAt", .date now)] ∧
    (updateEvent mode none (some id) body now store).resp.status = 200 ∧
    (updateEvent mode none (some id) body now store).resp.success = true ∧
    findDoc (updateEvent mode none (some id) body now store).store id
      = some ⟨d.oid, setField d.fields "updatedAt" (.date now)⟩ := by
  have hne2 : id ≠ "" := valid_oid_ne_empty id hid
  have hnz : body.length ≠ 0 := by
    intro h
    exact hne (List.length_eq_zero.mp h)
  have htf : transformUpdateFields body now = [("updatedAt", .date now)] := by
    unfold transformUpdateFields
    rw [removeField_all_reserved body hkeys]
    rfl
  have hstore : (updateEvent mode none (some id) body now store).store
      = updateFirstDoc store id (transformUpdateFields body now) := by
    simp [updateEvent, hne2, hid, hnz, hfind]
  refine ⟨htf, ?_, ?_, ?_⟩
  · simp [updateEvent, hne2, hid, hnz, hfind]
  · simp [updateEvent, hne2, hid, hnz, hfind]
  · rw [hstore, htf]
    exact findDoc_updateFirstDoc store id _ d hfind

/-- C10 witness at a concrete input: a body holding only `_id` and `type`
keys. -/
theorem claim_C10_reserved_only_update_witness :
    transformUpdateFields [("_id", .str "x"), ("type", .str "y")] 5
      = [("updatedAt", .date 5)] ∧
    (updateEvent "production" none (some "0123456789abcdef01234567")
        [("_id", .str "x"), ("type", .str "y")] 5
        [⟨"0123456789abcdef01234567", [("name", .str "O")]⟩]).resp.status
      = 200 := by
  have h := claim_C10_reserved_only_update "0123456789abcdef01234567"
    (by decide) [("_id", .str "x"), ("type", .str "y")] (by simp)
    (by decide) 5 "production"
    [⟨"0123456789abcdef01234567", [("name", .str "O")]⟩]
    ⟨"0123456789abcdef01234567", [("name", .str "O")]⟩ rfl
  exact ⟨h.1, h.2.1⟩

/-- C9: Create followed by Get-by-identifier on the returned id yields a
document equal to the Create input extended with the server-assigned
fields (`_id`, `type`, `createdAt`, `updatedAt`) and the defaulted fields
of the data model. -/
theorem claim_C9_roundtrip (b : CreateBody) (hwt : wellTypedCreate b = true)
    (mode : String) (now : Int) (newId : String)
    (hvalid : isValidObjectId newId = true) (store : Store)
    (hfresh : ∀ e ∈ store, e.oid ≠ newId) :
    (createEvent mode none b now newId store).resp.status = 201 ∧
    (createEvent mode none b now newId store).resp.data
      = some (.obj [("_id", .str newId)]) ∧
    (getEventById mode none (some newId)
        (createEvent mode none b now newId store).store).resp.status = 200 ∧
    (getEventById mode none (some newId)
        (createEvent mode none b now newId store).store).resp.data
      = some (specRoundTripDoc b newId now) := by
  have hname : truthyOpt b.name = true := by
    apply truthyOpt_of_nameOk
    simp only [wellTypedCreate, Bool.and_eq_true] at hwt
    exact hwt.1.1.1.1.1.1.1.1.1.1
  have hstore : (createEvent mode none b now newId store).store
      = store ++ [⟨newId, buildEventDocument b now⟩] := by
    simp [createEvent, hname]
  have hne : newId ≠ "" := valid_oid_ne_empty newId hvalid
  have hfind : findDoc (store ++ [⟨newId, buildEventDocument b now⟩]) newId
      = some ⟨newId, buildEventDocument b now⟩ :=
    findDoc_append_fresh store newId _ hfresh
  refine ⟨?_, ?_, ?_, ?_⟩
  · simp [createEvent, hname]
  · simp [createEvent, hname]
  · rw [hstore]
    simp [getEventById, hne, hvalid, hfind]
  · rw [hstore]
    have hget : (getEventById mode none (some newId)
        (store ++ [⟨newId, buildEventDocument b now⟩])).resp.data
        = some (docToJVal ⟨newId, buildEventDocument b now⟩) := by
      simp [getEventById, hne, hvalid, hfind]
    rw [hget]
    unfold docToJVal
    rw [buildEventDocument_wellTyped b now hwt]
    rfl

/-- C9 witness: a fully-populated well-typed Create body round-trips. -/
theorem claim_C9_roundtrip_witness :
    (createEvent "production" none
        { uid := some (.str "u1"), name := some (.str "Birthday"),
          tagline := some (.str "tag"), schedule := some (.date 77),
          description := some (.str "desc"),
          files := some (.obj [("image", .str "img.png")]),
          moderator := some (.str "mod"), category := some (.str "cat"),
          sub_category := some (.str "sub"), rigor_rank := some (.num 3),
          attendees := some (.arr [.str "a1", .str "a2"]) } 42
        "0123456789abcdef01234567" []).resp.status = 201 ∧
    (getEventById "production" none (some "0123456789abcdef01234567")
        (createEvent "production" none
          { uid := some (.str "u1"), name := some (.str "Birthday"),
            tagline := some (.str "tag"), schedule := some (.date 77),
            description := some (.str "desc"),
            files := some (.obj [("image", .str "img.png")]),
            moderator := some (.str "mod"), category := some (.str "cat"),
            sub_category := some (.str "sub"), rigor_rank := some (.num 3),
            attendees := some (.arr [.str "a1", .str "a2"]) } 42
          "0123456789abcdef01234567" []).store).resp.data
      = some (specRoundTripDoc
          { uid := some (.str "u1"), name := some (.str "Birthday"),
            tagline := some (.str "tag"), schedule := some (.date 77),
            description := some (.str "desc"),
            files := some (.obj [("image", .str "img.png")]),
            moderator := some (.str "mod"), category := some (.str "cat"),
            sub_category := some (.str "sub"), rigor_rank := some (.num 3),
            attendees := some (.arr [.str "a1", .str "a2"]) }
          "0123456789abcdef01234567" 42) := by
  have h := claim_C9_roundtrip
    { uid := some (.str "u1"), name := some (.str "Birthday"),
      tagline := some (.str "tag"), schedule := some (.date 77),
      description := some (.str "desc"),
      files := some (.obj [("image", .str "img.png")]),
      moderator := some (.str "mod"), category := some (.str "cat"),
      sub_category := some (.str "sub"), rigor_rank := some (.num 3),
      attendees := some (.arr [.str "a1", .str "a2"]) }
    (by decide) "production" 42 "0123456789abcdef01234567" (by decide) []
    (by simp)
  exact ⟨h.1, h.2.2.2⟩

end EventsApi
